import Mathlib

/-!
Verification development for the video-display scheduling and offline-playback
core of the repository.

The definitions below are a shallow embedding, translated from the TypeScript
sources:

* `src/lib/supabase.ts` — the `Video` record and
  `scheduleUtils.isVideoScheduledNow` / `scheduleUtils.timeStringToMinutes`;
* `src/app/display/page.tsx` — the playlist cursor with auto-advance on
  natural end, on playback error (after a recovery delay) and on manual skip;
* `public/sw.js` — the service-worker cache layer: `handleVideoRequest`
  (cache-first for video assets) and the activate-time flush of outdated
  caches.

JavaScript conventions are made explicit:

* an instant is an `Int` of milliseconds since the Unix epoch;
* a JS exception escaping a function is `Except.error`;
* `NaN`-producing conversions (`Number(...)`, invalid `Date`s) are `Option`
  values with `none` playing the role of `NaN`: every relational comparison
  against `none` is `false`, exactly as every comparison with `NaN` is false;
* the host runtime's local time zone (used implicitly by `Date#setHours`,
  `Date#getHours`, `new Date(localeString)`) is an explicit fixed offset in
  minutes east of UTC; IANA identifiers are resolved through an explicit
  database mapping identifiers to fixed offsets.  Time-zone offsets are
  modelled as constant (DST transitions are out of scope of the claims).
-/

/-- JavaScript exceptions that the scheduling code can raise: `parseError` for
`JSON.parse` on malformed input (a `SyntaxError`), `typeError` for calling
`.includes` on a value that has no such method, `rangeError` for
`toLocaleString` with an unresolvable time-zone identifier. -/
inductive JsErr where
  | parseError
  | typeError
  | rangeError
deriving DecidableEq, Repr

/-- A JSON value, as returned by `JSON.parse`.  Only the shapes that can be
stored in the `schedule_weekdays` column matter: arrays, integer numbers,
strings, booleans and null (objects and fractional numbers never appear in
that column, which the admin UI writes with `JSON.stringify` of an integer
array; inputs outside this fragment are treated as unparseable). -/
inductive JVal where
  | num (n : Int)
  | str (s : String)
  | bool (b : Bool)
  | null
  | arr (elems : List JVal)

/-- JSON insignificant whitespace. -/
def skipWs : List Char → List Char
  | [] => []
  | c :: cs => if c = ' ' ∨ c = '\t' ∨ c = '\n' ∨ c = '\r' then skipWs cs else c :: cs

/-- Digits of a decimal literal to a natural number. -/
def digitsToNat (cs : List Char) : Nat :=
  cs.foldl (fun a c => a * 10 + (c.toNat - 48)) 0

mutual

/-- One JSON value from a character stream (fuel-indexed recursive descent,
mirroring `JSON.parse` on the fragment described at `JVal`). -/
def parseVal : Nat → List Char → Option (JVal × List Char)
  | 0, _ => none
  | fuel + 1, input =>
    match skipWs input with
    | [] => none
    | c :: cs =>
      if c = '[' then
        match skipWs cs with
        | ']' :: rest => some (.arr [], rest)
        | cs2 =>
          match parseArrItems fuel cs2 with
          | some (xs, rest) => some (.arr xs, rest)
          | none => none
      else if c = '\"' then
        let body := cs.takeWhile (fun d => ¬ d = '\"')
        match cs.dropWhile (fun d => ¬ d = '\"') with
        | _ :: rest => some (.str (String.mk body), rest)
        | [] => none
      else if c = 't' then
        match cs with
        | 'r' :: 'u' :: 'e' :: rest => some (.bool true, rest)
        | _ => none
      else if c = 'f' then
        match cs with
        | 'a' :: 'l' :: 's' :: 'e' :: rest => some (.bool false, rest)
        | _ => none
      else if c = 'n' then
        match cs with
        | 'u' :: 'l' :: 'l' :: rest => some (.null, rest)
        | _ => none
      else if c = '-' then
        let ds := cs.takeWhile Char.isDigit
        if ds.isEmpty then none
        else some (.num (-(Int.ofNat (digitsToNat ds))), cs.dropWhile Char.isDigit)
      else if c.isDigit then
        some (.num (Int.ofNat (digitsToNat ((c :: cs).takeWhile Char.isDigit))),
              (c :: cs).dropWhile Char.isDigit)
      else none

/-- Comma-separated JSON array items up to the closing bracket. -/
def parseArrItems : Nat → List Char → Option (List JVal × List Char)
  | 0, _ => none
  | fuel + 1, input =>
    match parseVal fuel input with
    | none => none
    | some (v, rest) =>
      match skipWs rest with
      | ',' :: rest2 =>
        match parseArrItems fuel rest2 with
        | some (vs, rest3) => some (v :: vs, rest3)
        | none => none
      | ']' :: rest2 => some ([v], rest2)
      | _ => none

end

/-- `JSON.parse` on a string: parse one value and require only whitespace to
remain; `none` models a thrown `SyntaxError`. -/
def jsonParse (s : String) : Option JVal :=
  match parseVal (s.length + 1) s.data with
  | some (v, rest) => if (skipWs rest).isEmpty then some v else none
  | none => none

/-- `Number(str)` restricted to the strings that occur in the schedule time
fields (`""` and unsigned decimal integers such as the `"HH"`/`"MM"` pieces of
an `<input type="time">` value): `Number("") = 0`, a digit string is its
value, anything else is `NaN` (`none`). -/
def jsNumberChars (cs : List Char) : Option Int :=
  if cs.isEmpty then some 0
  else if cs.all Char.isDigit then some (Int.ofNat (digitsToNat cs)) else none

/-- `str.split(':')` on the character list. -/
def splitOnColon : List Char → List (List Char)
  | [] => [[]]
  | c :: cs =>
    if c = ':' then [] :: splitOnColon cs
    else
      match splitOnColon cs with
      | [] => [[c]]
      | g :: gs => (c :: g) :: gs

/-- `scheduleUtils.timeStringToMinutes` from `src/lib/supabase.ts`:
`const [hours, minutes] = timeString.split(':').map(Number); return
hours * 100 + minutes;`.  Despite its name it returns the base-100 `HHMM`
encoding, not minutes.  A missing or non-numeric component makes the result
`NaN` (`none`). -/
def timeStringToMinutes (s : String) : Option Int :=
  match (splitOnColon s.data).map jsNumberChars with
  | h :: m :: _ =>
    match h, m with
    | some hv, some mv => some (hv * 100 + mv)
    | _, _ => none
  | _ => none

/-! ## Calendar dates and the JavaScript `Date` model -/

/-- Gregorian leap year. -/
def isLeapYear (y : Nat) : Bool :=
  y % 4 = 0 && (y % 100 ≠ 0 || y % 400 = 0)

/-- Length of a month, used by the ISO date validation of `new Date(...)`. -/
def daysInMonth (y m : Nat) : Nat :=
  if m = 2 then (if isLeapYear y then 29 else 28)
  else if m = 4 ∨ m = 6 ∨ m = 9 ∨ m = 11 then 30
  else 31

/-- A `"YYYY-MM-DD"` string into a validated (year, month, day) triple. -/
def parseYMD (s : String) : Option (Nat × Nat × Nat) :=
  match s.data with
  | [y1, y2, y3, y4, '-', m1, m2, '-', d1, d2] =>
    if (y1.isDigit && y2.isDigit && y3.isDigit && y4.isDigit &&
        m1.isDigit && m2.isDigit && d1.isDigit && d2.isDigit) = true then
      let y := digitsToNat [y1, y2, y3, y4]
      let m := digitsToNat [m1, m2]
      let d := digitsToNat [d1, d2]
      if 1 ≤ m ∧ m ≤ 12 ∧ 1 ≤ d ∧ d ≤ daysInMonth y m then some (y, m, d) else none
    else none
  | _ => none

/-- Days from 1970-01-01 to the given civil date (proleptic Gregorian,
Hinnant's `days_from_civil`). -/
def daysFromCivil (y m d : Int) : Int :=
  let yAdj : Int := if m ≤ 2 then y - 1 else y
  let era : Int := yAdj / 400
  let yoe : Int := yAdj - era * 400
  let mp : Int := (m + 9) % 12
  let doy : Int := (153 * mp + 2) / 5 + (d - 1)
  let doe : Int := yoe * 365 + yoe / 4 - yoe / 100 + doy
  era * 146097 + doe - 719468

/-- `new Date("YYYY-MM-DD")`: a date-only ISO string parses to midnight UTC
of that day; an invalid string yields an Invalid Date, i.e. `NaN` (`none`).
The result is the epoch value in milliseconds. -/
def jsParseDate (s : String) : Option Int :=
  (parseYMD s).map (fun t => daysFromCivil t.1 t.2.1 t.2.2 * 86400000)

/-- The host JavaScript runtime.  `Date#getHours`, `Date#getMinutes`,
`Date#getDay`, `Date#setHours` and parsing of locale strings all work in the
runtime's local time zone, modelled as a fixed offset in minutes east of
UTC. -/
structure JsRuntime where
  localOffsetMin : Int

/-- The `Intl` time-zone database: an IANA identifier resolves to a fixed
offset in minutes east of UTC, or to nothing when the identifier is invalid
(in which case `toLocaleString` throws a `RangeError`). -/
structure TZDatabase where
  resolve : String → Option Int

/-- `toLocaleString('en-US', ...)` prints whole seconds, so the subsequent
`new Date(...)` round-trip truncates the instant to the last full second. -/
def truncSec (e : Int) : Int := e / 1000 * 1000

/-- `new Date(now.toLocaleString('en-US', { timeZone }))`: print the wall
clock of `now` in the zone at offset `tzOff`, then re-parse that string in
the runtime's local zone.  The resulting epoch is shifted by the difference
of the two offsets (milliseconds are lost to the seconds-precision print). -/
def jsToTimezone (rt : JsRuntime) (tzOff : Int) (now : Int) : Int :=
  truncSec now + (tzOff - rt.localOffsetMin) * 60000

/-- `Date#getHours` (0–23) in the runtime's local zone. -/
def jsGetHours (rt : JsRuntime) (e : Int) : Int :=
  (e + rt.localOffsetMin * 60000) / 3600000 % 24

/-- `Date#getMinutes` (0–59) in the runtime's local zone. -/
def jsGetMinutes (rt : JsRuntime) (e : Int) : Int :=
  (e + rt.localOffsetMin * 60000) / 60000 % 60

/-- `Date#getDay` (0 = Sunday … 6 = Saturday) in the runtime's local zone;
day 0 of the epoch was a Thursday. -/
def jsGetDay (rt : JsRuntime) (e : Int) : Int :=
  ((e + rt.localOffsetMin * 60000) / 86400000 + 4) % 7

/-- `endDate.setHours(23, 59, 59, 999)`: move the instant to 23:59:59.999 of
the same local calendar day, in the runtime's local zone. -/
def jsSetHoursEnd (rt : JsRuntime) (e : Int) : Int :=
  (e + rt.localOffsetMin * 60000) / 86400000 * 86400000 + 86399999
    - rt.localOffsetMin * 60000

/-- `x >= b` where `b` may be `NaN`: any comparison with `NaN` is false. -/
def jsGeO (x : Int) (b : Option Int) : Bool :=
  match b with
  | some v => decide (v ≤ x)
  | none => false

/-- `x <= b` where `b` may be `NaN`. -/
def jsLeO (x : Int) (b : Option Int) : Bool :=
  match b with
  | some v => decide (x ≤ v)
  | none => false

/-- `a <= b` where either side may be `NaN`. -/
def jsLeOO (a b : Option Int) : Bool :=
  match a, b with
  | some x, some y => decide (x ≤ y)
  | _, _ => false

/-! ## The `Video` record and `isVideoScheduledNow` -/

/-- The scheduling-relevant columns of the `Video` record from
`src/lib/supabase.ts`.  Optional text columns are `Option String`; JavaScript
truthiness tests (`!video.schedule_start_date` etc.) treat both a missing
value and the empty string as absent. -/
structure Video where
  is_active : Bool
  schedule_type : String
  schedule_start_date : Option String := none
  schedule_end_date : Option String := none
  schedule_start_time : Option String := none
  schedule_end_time : Option String := none
  schedule_weekdays : Option String := none
  schedule_timezone : String

/-- JavaScript falsiness of an optional string column: absent or empty. -/
def strFalsy : Option String → Bool
  | none => true
  | some s => s = ""

/-- The string content of an optional column (only read after a truthiness
check, so the `none` case is arbitrary). -/
def getStr : Option String → String
  | none => ""
  | some s => s

/-- Whether `pre` is a leading segment of the second list. -/
def listPrefixOf : List Char → List Char → Bool
  | [], _ => true
  | _ :: _, [] => false
  | a :: as, b :: bs => a = b && listPrefixOf as bs

/-- `String.prototype.includes`, on character lists: `sub` occurs inside the
second list as a contiguous segment. -/
def listContainsSub (sub : List Char) : List Char → Bool
  | [] => sub.isEmpty
  | c :: cs => listPrefixOf sub (c :: cs) || listContainsSub sub cs

/-- `weekdays.includes(currentWeekday)` where `weekdays` is whatever
`JSON.parse` returned: on an array, SameValueZero membership (only a numeric
element can equal the numeric weekday); on a string, substring search of the
decimal rendering of the weekday; on a number, boolean or null there is no
`includes` method and a `TypeError` is thrown. -/
def jsIncludes (v : JVal) (day : Int) : Except JsErr Bool :=
  match v with
  | .arr xs => .ok (xs.any (fun j => match j with | .num n => n == day | _ => false))
  | .str s => .ok (listContainsSub (toString day).data s.data)
  | _ => .error .typeError

/-- `scheduleUtils.isVideoScheduledNow` from `src/lib/supabase.ts`, line for
line: inactive videos are rejected first; the current instant is converted
into the video's time zone (`schedule_timezone`, with `'UTC'` substituted for
a falsy value) via the `toLocaleString` round-trip; then the code dispatches
on `schedule_type`.  `Except.error` marks a JavaScript exception escaping the
function (`RangeError` from an unresolvable zone, `SyntaxError` from
`JSON.parse`, `TypeError` from `.includes`). -/
def isVideoScheduledNow (rt : JsRuntime) (db : TZDatabase) (video : Video)
    (now : Int) : Except JsErr Bool :=
  if video.is_active = false then .ok false
  else
    let timezone := if video.schedule_timezone = "" then "UTC" else video.schedule_timezone
    match db.resolve timezone with
    | none => .error .rangeError
    | some tzOff =>
      let nowInTimezone := jsToTimezone rt tzOff now
      if video.schedule_type = "always" then .ok true
      else if video.schedule_type = "date_range" then
        if strFalsy video.schedule_start_date || strFalsy video.schedule_end_date then
          .ok false
        else
          let startDate := jsParseDate (getStr video.schedule_start_date)
          let endDate := (jsParseDate (getStr video.schedule_end_date)).map (jsSetHoursEnd rt)
          .ok (jsGeO nowInTimezone startDate && jsLeO nowInTimezone endDate)
      else if video.schedule_type = "time_daily" then
        if strFalsy video.schedule_start_time || strFalsy video.schedule_end_time then
          .ok false
        else
          let currentTime := jsGetHours rt nowInTimezone * 100 + jsGetMinutes rt nowInTimezone
          let startTime := timeStringToMinutes (getStr video.schedule_start_time)
          let endTime := timeStringToMinutes (getStr video.schedule_end_time)
          if jsLeOO startTime endTime then
            .ok (jsGeO currentTime startTime && jsLeO currentTime endTime)
          else
            .ok (jsGeO currentTime startTime || jsLeO currentTime endTime)
      else if video.schedule_type = "weekdays" then
        if strFalsy video.schedule_weekdays then .ok false
        else
          match jsonParse (getStr video.schedule_weekdays) with
          | none => .error .parseError
          | some weekdays => jsIncludes weekdays (jsGetDay rt nowInTimezone)
      else if video.schedule_type = "custom" then
        let isInDateRange : Bool :=
          if (!strFalsy video.schedule_start_date && !strFalsy video.schedule_end_date) = true then
            let startDate := jsParseDate (getStr video.schedule_start_date)
            let endDate := (jsParseDate (getStr video.schedule_end_date)).map (jsSetHoursEnd rt)
            jsGeO nowInTimezone startDate && jsLeO nowInTimezone endDate
          else true
        let isInTimeRange : Bool :=
          if (!strFalsy video.schedule_start_time && !strFalsy video.schedule_end_time) = true then
            let currentTime := jsGetHours rt nowInTimezone * 100 + jsGetMinutes rt nowInTimezone
            let startTime := timeStringToMinutes (getStr video.schedule_start_time)
            let endTime := timeStringToMinutes (getStr video.schedule_end_time)
            if jsLeOO startTime endTime then
              jsGeO currentTime startTime && jsLeO currentTime endTime
            else
              jsGeO currentTime startTime || jsLeO currentTime endTime
          else true
        match (if (!strFalsy video.schedule_weekdays) = true then
                match jsonParse (getStr video.schedule_weekdays) with
                | none => Except.error JsErr.parseError
                | some weekdays => jsIncludes weekdays (jsGetDay rt nowInTimezone)
              else Except.ok true) with
        | .error err => .error err
        | .ok isOnCorrectWeekday => .ok (isInDateRange && isInTimeRange && isOnCorrectWeekday)
      else .ok false

deriving instance DecidableEq for Except

/-- A concrete runtime whose local clock is UTC. -/
def rtUTC : JsRuntime := ⟨0⟩

/-- A concrete runtime one hour east of UTC. -/
def rtPlus1 : JsRuntime := ⟨60⟩

/-- A concrete time-zone database resolving only `"UTC"`. -/
def dbUTCOnly : TZDatabase :=
  ⟨fun s => if s = "UTC" then some 0 else none⟩


/-! ## The display-page playlist cursor (`src/app/display/page.tsx`)

The display page keeps `currentVideoIndex` and a `videoError` flag in React
state.  Three code paths move the cursor, and each computes
`(currentVideoIndex + 1) % videos.length`:

* the `ended` listener (`handleVideoEnd`);
* the `error` listener, which sets `videoError` and schedules a recovery
  timer whose callback advances (`handleVideoError` then `errorTimerFire`);
* the manual `skipToNext` button.

There is no failure counter and no terminal status in this code: every
playback error leads, after the fixed delay, to another advance. -/

/-- The sequencing-relevant React state of the display page. -/
structure PlayerState where
  currentVideoIndex : Nat
  videoError : Bool
deriving DecidableEq, Repr

/-- The `ended` listener: advance to the next video (wrapping) and clear the
error flag. -/
def handleVideoEnd (len : Nat) (s : PlayerState) : PlayerState :=
  ⟨(s.currentVideoIndex + 1) % len, false⟩

/-- The `error` listener at the moment it fires: it only sets `videoError`
and schedules the recovery timer; the cursor does not move yet. -/
def handleVideoError (s : PlayerState) : PlayerState :=
  ⟨s.currentVideoIndex, true⟩

/-- The recovery timer scheduled by the `error` listener: advance to the next
video (wrapping) and clear the error flag. -/
def errorTimerFire (len : Nat) (s : PlayerState) : PlayerState :=
  ⟨(s.currentVideoIndex + 1) % len, false⟩

/-- The manual skip button. -/
def skipToNext (len : Nat) (s : PlayerState) : PlayerState :=
  ⟨(s.currentVideoIndex + 1) % len, false⟩

/-- One complete playback-error report: the `error` listener fires and,
after the recovery delay, its timer advances the cursor. -/
def playbackErrorCycle (len : Nat) (s : PlayerState) : PlayerState :=
  errorTimerFire len (handleVideoError s)

/-- `k` consecutive playback-error reports with no intervening successful
play. -/
def iterErrors (len : Nat) : Nat → PlayerState → PlayerState
  | 0, s => s
  | k + 1, s => iterErrors len k (playbackErrorCycle len s)

/-! ## The service worker (`public/sw.js`) -/

/-- A `Response`, reduced to its status code (all the cache logic inspects). -/
structure SWResponse where
  status : Nat
deriving DecidableEq, Repr

/-- `Response.ok`: status in the 200–299 range. -/
def respOk (r : SWResponse) : Bool :=
  decide (200 ≤ r.status) && decide (r.status < 300)

/-- The video cache content, an association list from request URL to stored
response (`Cache#put` overwrites by key). -/
def cacheMatch (cache : List (String × SWResponse)) (url : String) : Option SWResponse :=
  match cache.find? (fun e => e.1 == url) with
  | some e => some e.2
  | none => none

/-- `Cache#put`: store under the key, shadowing any previous entry. -/
def cachePut (cache : List (String × SWResponse)) (url : String) (r : SWResponse) :
    List (String × SWResponse) :=
  (url, r) :: cache

/-- `handleVideoRequest` from `public/sw.js` (cache-first strategy for video
assets).  `net url = none` models a rejected `fetch`.  The result is the
returned response, the cache after the call, and how many network fetches
were issued.  The function is total: the surrounding `try`/`catch` means no
exception escapes this handler; with no cached fallback it answers an
explicit 503 `Video not available offline` response. -/
def handleVideoRequest (net : String → Option SWResponse)
    (cache : List (String × SWResponse)) (url : String) :
    SWResponse × List (String × SWResponse) × Nat :=
  match cacheMatch cache url with
  | some cached => (cached, cache, 0)
  | none =>
    match net url with
    | some response =>
      if respOk response then (response, cachePut cache url response, 1)
      else (response, cache, 1)
    | none =>
      match cacheMatch cache url with
      | some cached => (cached, cache, 1)
      | none => (⟨503⟩, cache, 1)

/-- `const CACHE_NAME = 'video-display-v1'`. -/
def CACHE_NAME : String := "video-display-v1"

/-- `const STATIC_CACHE = 'static-assets-v1'`. -/
def STATIC_CACHE : String := "static-assets-v1"

/-- `const VIDEO_CACHE = 'video-files-v1'`. -/
def VIDEO_CACHE : String := "video-files-v1"

/-- `const API_CACHE = 'api-responses-v1'`. -/
def API_CACHE : String := "api-responses-v1"

/-- The version-tagged cache names of the currently installed service worker,
exactly the names the activate handler keeps. -/
def currentCacheNames : List String := [CACHE_NAME, STATIC_CACHE, VIDEO_CACHE, API_CACHE]

/-- The activate handler's flush: over all existing cache names, delete every
cache whose name is not one of the current version-tagged names.  The result
is the list of deleted names. -/
def activateDeletedCaches (cacheNames : List String) : List String :=
  cacheNames.filter (fun n => !(currentCacheNames.contains n))

/-! ## The two time-of-day encodings (claim C10) -/

/-- The daily-window decision exactly as the `time_daily` comparison chain
computes it, parameterised by the already-encoded operands: the code encodes
a time of day `h:m` as `h * 100 + m` (this is what `timeStringToMinutes`
returns for the bounds and what `getHours() * 100 + getMinutes()` produces
for the current time). -/
def windowDecisionBase100 (sh sm eh em ch cm : Int) : Bool :=
  if sh * 100 + sm ≤ eh * 100 + em then
    decide (sh * 100 + sm ≤ ch * 100 + cm ∧ ch * 100 + cm ≤ eh * 100 + em)
  else
    decide (sh * 100 + sm ≤ ch * 100 + cm ∨ ch * 100 + cm ≤ eh * 100 + em)

/-- Modelled from the spec: the same decision with the true minute-of-day
encoding `h * 60 + m` (0–1439) that the specification prescribes in place of
the base-100 trick. -/
def windowDecisionMinuteOfDay (sh sm eh em ch cm : Int) : Bool :=
  if sh * 60 + sm ≤ eh * 60 + em then
    decide (sh * 60 + sm ≤ ch * 60 + cm ∧ ch * 60 + cm ≤ eh * 60 + em)
  else
    decide (sh * 60 + sm ≤ ch * 60 + cm ∨ ch * 60 + cm ≤ eh * 60 + em)


/-! ## The three sub-checks duplicated inside the `custom` branch

The `custom` case of `isVideoScheduledNow` duplicates, inline, the date-range
comparison, the daily-time comparison and the weekday membership test, each
guarded by presence of its fields and defaulting to `true` when the fields
are absent.  The following three definitions are those guarded sub-checks,
stated on their own so that the `custom` branch can be proved to be exactly
their conjunction. -/

/-- The `isInDateRange` flag of the `custom` branch: `true` unless both date
columns are present, in which case the same comparison as the standalone
`date_range` branch. -/
def customDateCheck (rt : JsRuntime) (sd ed : Option String) (nowTz : Int) : Bool :=
  if (!strFalsy sd && !strFalsy ed) = true then
    jsGeO nowTz (jsParseDate (getStr sd)) &&
      jsLeO nowTz ((jsParseDate (getStr ed)).map (jsSetHoursEnd rt))
  else true

/-- The `isInTimeRange` flag of the `custom` branch: `true` unless both time
columns are present, in which case the same comparison as the standalone
`time_daily` branch. -/
def customTimeCheck (rt : JsRuntime) (st et : Option String) (nowTz : Int) : Bool :=
  if (!strFalsy st && !strFalsy et) = true then
    let currentTime := jsGetHours rt nowTz * 100 + jsGetMinutes rt nowTz
    let startTime := timeStringToMinutes (getStr st)
    let endTime := timeStringToMinutes (getStr et)
    if jsLeOO startTime endTime then
      jsGeO currentTime startTime && jsLeO currentTime endTime
    else
      jsGeO currentTime startTime || jsLeO currentTime endTime
  else true

/-- The `isOnCorrectWeekday` flag of the `custom` branch: `true` unless the
weekday column is present, in which case the same parse-then-`includes` test
as the standalone `weekdays` branch (which can throw). -/
def customWeekdayCheck (wd : Option String) (day : Int) : Except JsErr Bool :=
  if (!strFalsy wd) = true then
    match jsonParse (getStr wd) with
    | none => .error .parseError
    | some weekdays => jsIncludes weekdays day
  else .ok true

/-- The minute of day (0–1439), written as hour-of-day × 60 + minute-of-hour,
read off the wall clock of the zone at offset `tzOff` for the instant `now`
(after the seconds-precision `toLocaleString` round-trip).  This is the
"converted current time" in which the specification states the daily-window
semantics. -/
def minuteOfDayAt (tzOff now : Int) : Int :=
  (truncSec now + tzOff * 60000) / 3600000 % 24 * 60 +
    (truncSec now + tzOff * 60000) / 60000 % 60

/-! ## Helper lemmas and sanity checks on the embedding -/

theorem timeStringToMinutes_sample : timeStringToMinutes ("09:30") = some 930 := by decide

theorem jsonParse_sample :
    jsonParse ("[1, 3, 5]") = some (.arr [.num 1, .num 3, .num 5]) := rfl

theorem jsonParse_malformed_sample : jsonParse ("oops") = none := rfl

theorem jsParseDate_epoch_sample : jsParseDate ("1970-01-01") = some 0 := by decide

theorem jsParseDate_sample : jsParseDate ("2024-01-31") = some 1706659200000 := by decide

theorem jsParseDate_invalid_sample : jsParseDate ("2024-02-30") = none := by decide

/-- Every successfully parsed date is a whole number of days. -/
theorem jsParseDate_day_multiple {s : String} {d : Int}
    (h : jsParseDate s = some d) : ∃ k : Int, d = k * 86400000 := by
  unfold jsParseDate at h
  cases hp : parseYMD s with
  | none => rw [hp] at h; exact Option.noConfusion h
  | some t =>
    rw [hp] at h
    exact ⟨daysFromCivil t.1 t.2.1 t.2.2, (Option.some.inj h).symm⟩

/-- The `Always` rule plays whenever the item is active and its zone
resolves (sanity check of the embedding). -/
theorem isVideoScheduledNow_always_sample :
    isVideoScheduledNow rtUTC dbUTCOnly
      { is_active := true, schedule_type := "always", schedule_timezone := "UTC" } 0
      = .ok true := by decide

/-! ## Claim C7 — advancing is `(i + 1) mod len` -/

/-- C7: for a non-empty playlist of length `len` and a cursor `i < len`,
every advancing path of the display page — natural end of content, the
error-driven skip timer, and the manual skip — moves the cursor to
`(i + 1) % len`; that index is again within `[0, len - 1]`, and on a
single-item playlist it is the same item. -/
theorem c7_advance_mod_len (len i : Nat) (b : Bool) (hlen : 0 < len) (hi : i < len) :
    (handleVideoEnd len ⟨i, b⟩).currentVideoIndex = (i + 1) % len ∧
    (errorTimerFire len ⟨i, b⟩).currentVideoIndex = (i + 1) % len ∧
    (skipToNext len ⟨i, b⟩).currentVideoIndex = (i + 1) % len ∧
    (i + 1) % len < len ∧
    (len = 1 → (i + 1) % len = i) := by
  refine ⟨rfl, rfl, rfl, Nat.mod_lt _ hlen, ?_⟩
  intro h
  subst h
  omega

/-- Witness for C7 at a concrete single-item playlist. -/
theorem c7_advance_mod_len_witness :
    (skipToNext 1 ⟨0, false⟩).currentVideoIndex = (0 + 1) % 1 ∧ (0 + 1) % 1 = 0 := by
  have h := c7_advance_mod_len 1 0 false (by decide) (by decide)
  exact ⟨h.2.2.1, h.2.2.2.2 rfl⟩

/-! ## Claim C2 — there is no `Stalled` status -/

/-- C2 (amended): the display page has no failure counter and no terminal
`Stalled` status; `k` consecutive playback-error reports with no intervening
success simply advance the cursor `k` times (mod the playlist length), for
every `k` — in particular past any threshold of three. -/
theorem c2_error_reports_keep_advancing (len k : Nat) (s : PlayerState)
    (hlen : 0 < len) (hi : s.currentVideoIndex < len) :
    (iterErrors len k s).currentVideoIndex = (s.currentVideoIndex + k) % len ∧
    (iterErrors len k s).currentVideoIndex < len := by
  induction k generalizing s with
  | zero =>
    simpa [iterErrors, Nat.mod_eq_of_lt hi] using hi
  | succ k ih =>
    have hstep : (playbackErrorCycle len s).currentVideoIndex = (s.currentVideoIndex + 1) % len :=
      rfl
    have hlt : (playbackErrorCycle len s).currentVideoIndex < len := by
      rw [hstep]; exact Nat.mod_lt _ hlen
    have h := ih (playbackErrorCycle len s) hlt
    refine ⟨?_, h.2⟩
    rw [iterErrors, h.1, hstep, Nat.mod_add_mod]
    congr 1
    omega

/-- Witness for C2's amended statement: four consecutive error reports on a
three-item playlist leave the cursor at `(0 + 4) % 3`. -/
theorem c2_error_reports_keep_advancing_witness :
    (iterErrors 3 4 ⟨0, false⟩).currentVideoIndex = (0 + 4) % 3 :=
  (c2_error_reports_keep_advancing 3 4 ⟨0, false⟩ (by decide) (by decide)).1

/-- Counterexample to C2 as stated: after three consecutive playback-error
reports the sequencer is in no terminal state — a fourth error report still
auto-advances the cursor (from 0 to 1 on a three-item playlist) and the
error flag is clear, so the engine keeps auto-skipping silently instead of
entering a `Stalled` status. -/
theorem c2_no_stall_cex :
    (iterErrors 3 3 ⟨0, false⟩).currentVideoIndex = 0 ∧
    (playbackErrorCycle 3 (iterErrors 3 3 ⟨0, false⟩)).currentVideoIndex = 1 ∧
    (iterErrors 3 3 ⟨0, false⟩).videoError = false := by decide

/-! ## Claim C9 — the activate-time version flush -/

/-- C9: the activate handler deletes exactly the caches whose (version-
tagged) name is not among the current version's cache names: every outdated
cache is deleted and no current-version cache is, leaving no mixture of
versions. -/
theorem c9_flush_deletes_iff_not_current (cacheNames : List String) (n : String)
    (hn : n ∈ cacheNames) :
    n ∈ activateDeletedCaches cacheNames ↔ ¬ n ∈ currentCacheNames := by
  simp [activateDeletedCaches, List.mem_filter, hn]

/-- Witness for C9: a prior-version video cache is flushed, the current one
is kept. -/
theorem c9_flush_deletes_iff_not_current_witness :
    ("video-files-v0") ∈ activateDeletedCaches [VIDEO_CACHE, "video-files-v0"] ∧
    ¬ VIDEO_CACHE ∈ activateDeletedCaches [VIDEO_CACHE, "video-files-v0"] := by
  constructor
  · exact (c9_flush_deletes_iff_not_current [VIDEO_CACHE, "video-files-v0"]
      ("video-files-v0") (by decide)).mpr (by decide)
  · intro h
    exact absurd ((c9_flush_deletes_iff_not_current [VIDEO_CACHE, "video-files-v0"]
      VIDEO_CACHE (by decide)).mp h) (by decide)

/-! ## Claim C10 — base-100 encoding refines minute-of-day -/

/-- C10: on valid times of day the daily-window decision computed with the
code's base-100 encoding (`h * 100 + m`) coincides with the decision
computed with the true minute-of-day encoding (`h * 60 + m`), in both the
same-day and the overnight branch, and the branch test itself agrees because
the base-100 encoding is order-preserving on valid times. -/
theorem c10_base100_refines_minute_of_day (sh sm eh em ch cm : Int)
    (hsh : 0 ≤ sh ∧ sh < 24) (hsm : 0 ≤ sm ∧ sm < 60)
    (heh : 0 ≤ eh ∧ eh < 24) (hem : 0 ≤ em ∧ em < 60)
    (hch : 0 ≤ ch ∧ ch < 24) (hcm : 0 ≤ cm ∧ cm < 60) :
    windowDecisionBase100 sh sm eh em ch cm = windowDecisionMinuteOfDay sh sm eh em ch cm ∧
    (sh * 100 + sm ≤ eh * 100 + em ↔ sh * 60 + sm ≤ eh * 60 + em) := by
  constructor
  · unfold windowDecisionBase100 windowDecisionMinuteOfDay
    split_ifs with h1 h2 h2
    · exact decide_eq_decide.mpr (by omega)
    · exact absurd h1 (by omega)
    · exact absurd h2 (by omega)
    · exact decide_eq_decide.mpr (by omega)
  · omega

/-- Witness for C10 in the overnight branch (22:00–06:00 at 23:30). -/
theorem c10_base100_refines_minute_of_day_witness :
    windowDecisionBase100 22 0 6 0 23 30 = windowDecisionMinuteOfDay 22 0 6 0 23 30 :=
  (c10_base100_refines_minute_of_day 22 0 6 0 23 30 (by decide) (by decide) (by decide)
    (by decide) (by decide) (by decide)).1

/-! ## Claim C8 — cache-first video handling -/

/-- C8: the cache-first video handler returns a cached entry without any
network fetch; on a miss it fetches once, stores only successful responses
(so a second get after the stored success issues no further fetch, keeping
the total fetch count at one), does not store failed responses, and on a
fetch failure with nothing cached returns an explicit 503 "unavailable"
response instead of letting the error escape. -/
theorem c8_video_cache_first (net : String → Option SWResponse)
    (cache : List (String × SWResponse)) (url : String) (r resp : SWResponse) :
    (cacheMatch cache url = some r → handleVideoRequest net cache url = (r, cache, 0)) ∧
    (cacheMatch cache url = none → net url = some resp → respOk resp = true →
      handleVideoRequest net cache url = (resp, cachePut cache url resp, 1) ∧
      handleVideoRequest net (cachePut cache url resp) url = (resp, cachePut cache url resp, 0)) ∧
    (cacheMatch cache url = none → net url = some resp → respOk resp = false →
      handleVideoRequest net cache url = (resp, cache, 1)) ∧
    (cacheMatch cache url = none → net url = none →
      handleVideoRequest net cache url = (⟨503⟩, cache, 1)) := by
  refine ⟨?_, ?_, ?_, ?_⟩
  · intro h
    simp [handleVideoRequest, h]
  · intro h hn hok
    have hm : cacheMatch (cachePut cache url resp) url = some resp := by
      simp [cacheMatch, cachePut, List.find?]
    constructor
    · simp [handleVideoRequest, h, hn, hok]
    · simp [handleVideoRequest, hm]
  · intro h hn hok
    simp [handleVideoRequest, h, hn, hok]
  · intro h hn
    simp [handleVideoRequest, h, hn]

/-- Witness for C8: a hit on a stored successful response, after a miss that
fetched it, with no second fetch. -/
theorem c8_video_cache_first_witness :
    handleVideoRequest (fun _ => some ⟨200⟩) [] ("https://blob/video.mp4")
      = (⟨200⟩, cachePut [] ("https://blob/video.mp4") ⟨200⟩, 1) ∧
    handleVideoRequest (fun _ => some ⟨200⟩) (cachePut [] ("https://blob/video.mp4") ⟨200⟩)
      ("https://blob/video.mp4")
      = (⟨200⟩, cachePut [] ("https://blob/video.mp4") ⟨200⟩, 0) :=
  (c8_video_cache_first (fun _ => some ⟨200⟩) [] ("https://blob/video.mp4") ⟨200⟩ ⟨200⟩).2.1
    (by decide) rfl (by decide)

/-! ## Claim C1 — malformed weekday data -/

/-- C1 (amended): with an active item and a resolvable zone, an absent or
empty weekday column fails closed to `false`; but weekday data that is
present and not parseable as JSON makes `JSON.parse` throw, and that
exception escapes `isVideoScheduledNow` — under the `weekdays` rule and
equally under the weekday sub-check of the `custom` rule — instead of the
check failing closed. -/
theorem c1_weekday_parse_error_escapes (rt : JsRuntime) (db : TZDatabase) (v : Video)
    (now τ : Int) (s : String)
    (hact : v.is_active = true)
    (hres : db.resolve (if v.schedule_timezone = "" then "UTC" else v.schedule_timezone)
      = some τ) :
    (v.schedule_type = "weekdays" → strFalsy v.schedule_weekdays = true →
      isVideoScheduledNow rt db v now = .ok false) ∧
    (v.schedule_type = "weekdays" → v.schedule_weekdays = some s → ¬ s = "" →
      jsonParse s = none → isVideoScheduledNow rt db v now = .error .parseError) ∧
    (v.schedule_type = "custom" → v.schedule_weekdays = some s → ¬ s = "" →
      jsonParse s = none → isVideoScheduledNow rt db v now = .error .parseError) := by
  refine ⟨?_, ?_, ?_⟩
  · intro hty hfalsy
    simp [isVideoScheduledNow, hact, hres, hty, hfalsy]
  · intro hty hwd hne hparse
    simp [isVideoScheduledNow, hact, hres, hty, hwd, strFalsy, hne, getStr, hparse]
  · intro hty hwd hne hparse
    simp [isVideoScheduledNow, hact, hres, hty, hwd, strFalsy, hne, getStr, hparse]

/-- Counterexample to C1 as stated: a `weekdays` item whose stored weekday
data is the unparseable string `"oops"` does not fail closed — the
`SyntaxError` from `JSON.parse` escapes the evaluator. -/
theorem c1_weekdays_malformed_cex :
    isVideoScheduledNow rtUTC dbUTCOnly
      { is_active := true, schedule_type := "weekdays", schedule_weekdays := some ("oops"),
        schedule_timezone := "UTC" } 0 = .error .parseError ∧
    jsonParse ("oops") = none ∧
    ¬ isVideoScheduledNow rtUTC dbUTCOnly
      { is_active := true, schedule_type := "weekdays", schedule_weekdays := some ("oops"),
        schedule_timezone := "UTC" } 0 = .ok false := by
  refine ⟨by decide, rfl, by decide⟩

/-- Witness for C1's amended statement on the `custom` rule with unparseable
weekday data. -/
theorem c1_weekday_parse_error_escapes_witness :
    isVideoScheduledNow rtPlus1 dbUTCOnly
      { is_active := true, schedule_type := "custom", schedule_weekdays := some ("["),
        schedule_timezone := "UTC" } 0 = .error .parseError :=
  (c1_weekday_parse_error_escapes rtPlus1 dbUTCOnly
    { is_active := true, schedule_type := "custom", schedule_weekdays := some ("["),
      schedule_timezone := "UTC" } 0 0 ("[") rfl (by decide)).2.2 rfl rfl (by decide) rfl

/-! ## Claim C3 — time-zone fallback -/

/-- C3 (amended): the `|| 'UTC'` fallback applies only to an *empty*
time-zone column — there the evaluator behaves exactly as if the zone were
`"UTC"`.  A non-empty identifier that the zone database cannot resolve is
passed straight to `toLocaleString`, whose `RangeError` escapes the
evaluator (for an active item) instead of falling back to UTC. -/
theorem c3_timezone_fallback_and_throw (rt : JsRuntime) (db : TZDatabase) (v : Video)
    (now : Int) :
    (v.schedule_timezone = "" →
      isVideoScheduledNow rt db v now
        = isVideoScheduledNow rt db { v with schedule_timezone := "UTC" } now) ∧
    (v.is_active = true → ¬ v.schedule_timezone = "" →
      db.resolve v.schedule_timezone = none →
      isVideoScheduledNow rt db v now = .error .rangeError) := by
  constructor
  · intro htz
    simp [isVideoScheduledNow, htz]
  · intro hact htz hres
    simp [isVideoScheduledNow, hact, htz, hres]

/-- Counterexample to C3 as stated: an active item with the unresolvable
zone `"Mars/Olympus"` makes the evaluator throw a `RangeError`; it does not
evaluate under UTC and it returns no boolean. -/
theorem c3_invalid_timezone_throws_cex :
    isVideoScheduledNow rtUTC dbUTCOnly
      { is_active := true, schedule_type := "always", schedule_timezone := "Mars/Olympus" } 0
      = .error .rangeError ∧
    dbUTCOnly.resolve ("Mars/Olympus") = none ∧
    ¬ isVideoScheduledNow rtUTC dbUTCOnly
      { is_active := true, schedule_type := "always", schedule_timezone := "Mars/Olympus" } 0
      = .ok true := by decide

/-- Witness for C3's amended statement at a concrete unresolvable zone. -/
theorem c3_timezone_fallback_and_throw_witness :
    isVideoScheduledNow rtPlus1 dbUTCOnly
      { is_active := true, schedule_type := "always", schedule_timezone := "Pluto/Dark" } 5
      = .error .rangeError :=
  (c3_timezone_fallback_and_throw rtPlus1 dbUTCOnly
    { is_active := true, schedule_type := "always", schedule_timezone := "Pluto/Dark" } 5).2
    rfl (by decide) (by decide)

/-! ## Claim C4 — daily-window semantics -/

/-- C4: for an active `time_daily` item whose two bounds are present and
parse as valid times of day `sh:sm` and `eh:em`, eligibility at any instant
is: when `start ≤ end`, membership of the converted current minute of day in
the inclusive interval `[start, end]`; when `start > end` (overnight
window), `current ≥ start ∨ current ≤ end`; and a zero-duration window
(`start = end`) matches exactly the minute `start`. -/
theorem c4_daily_window (rt : JsRuntime) (db : TZDatabase) (v : Video)
    (now τ sh sm eh em : Int) (ss es : String)
    (hty : v.schedule_type = "time_daily") (hact : v.is_active = true)
    (hres : db.resolve (if v.schedule_timezone = "" then "UTC" else v.schedule_timezone)
      = some τ)
    (hss : v.schedule_start_time = some ss) (hes : v.schedule_end_time = some es)
    (hps : timeStringToMinutes ss = some (sh * 100 + sm))
    (hpe : timeStringToMinutes es = some (eh * 100 + em))
    (hsh : 0 ≤ sh ∧ sh < 24) (hsm : 0 ≤ sm ∧ sm < 60)
    (heh : 0 ≤ eh ∧ eh < 24) (hem : 0 ≤ em ∧ em < 60) :
    (isVideoScheduledNow rt db v now = .ok true ↔
      (if sh * 60 + sm ≤ eh * 60 + em then
        sh * 60 + sm ≤ minuteOfDayAt τ now ∧ minuteOfDayAt τ now ≤ eh * 60 + em
      else
        sh * 60 + sm ≤ minuteOfDayAt τ now ∨ minuteOfDayAt τ now ≤ eh * 60 + em)) ∧
    (sh = eh ∧ sm = em →
      (isVideoScheduledNow rt db v now = .ok true ↔ minuteOfDayAt τ now = sh * 60 + sm)) := by
  have h0 : timeStringToMinutes ("") = none := rfl
  have hsne : ¬ ss = "" := by
    intro h; rw [h, h0] at hps; exact Option.noConfusion hps
  have hene : ¬ es = "" := by
    intro h; rw [h, h0] at hpe; exact Option.noConfusion hpe
  have hexp : isVideoScheduledNow rt db v now =
      (if jsLeOO (timeStringToMinutes ss) (timeStringToMinutes es) then
        Except.ok
          (jsGeO (jsGetHours rt (jsToTimezone rt τ now) * 100 +
              jsGetMinutes rt (jsToTimezone rt τ now)) (timeStringToMinutes ss) &&
            jsLeO (jsGetHours rt (jsToTimezone rt τ now) * 100 +
              jsGetMinutes rt (jsToTimezone rt τ now)) (timeStringToMinutes es))
      else
        Except.ok
          (jsGeO (jsGetHours rt (jsToTimezone rt τ now) * 100 +
              jsGetMinutes rt (jsToTimezone rt τ now)) (timeStringToMinutes ss) ||
            jsLeO (jsGetHours rt (jsToTimezone rt τ now) * 100 +
              jsGetMinutes rt (jsToTimezone rt τ now)) (timeStringToMinutes es))) := by
    simp [isVideoScheduledNow, hact, hres, hty, hss, hes, strFalsy, hsne, hene, getStr]
  have hmain : isVideoScheduledNow rt db v now = .ok true ↔
      (if sh * 60 + sm ≤ eh * 60 + em then
        sh * 60 + sm ≤ minuteOfDayAt τ now ∧ minuteOfDayAt τ now ≤ eh * 60 + em
      else
        sh * 60 + sm ≤ minuteOfDayAt τ now ∨ minuteOfDayAt τ now ≤ eh * 60 + em) := by
    rw [hexp, hps, hpe]
    simp only [jsLeOO, jsGeO, jsLeO, jsToTimezone, jsGetHours, jsGetMinutes, truncSec,
      minuteOfDayAt, decide_eq_true_eq]
    split_ifs with h1 h2 h2
    · simp only [Except.ok.injEq, Bool.and_eq_true, decide_eq_true_eq]
      omega
    · exact absurd h2 (by omega)
    · exact absurd h1 (by omega)
    · simp only [Except.ok.injEq, Bool.or_eq_true, decide_eq_true_eq]
      omega
  refine ⟨hmain, ?_⟩
  rintro ⟨h1, h2⟩
  subst h1; subst h2
  rw [hmain, if_pos (le_refl _)]
  unfold minuteOfDayAt truncSec
  constructor
  · intro h; omega
  · intro h; omega

/-- Witness for C4: a 09:00–17:00 window at 10:00 UTC. -/
theorem c4_daily_window_witness :
    isVideoScheduledNow rtUTC dbUTCOnly
      { is_active := true, schedule_type := "time_daily",
        schedule_start_time := some ("09:00"), schedule_end_time := some ("17:00"),
        schedule_timezone := "UTC" } 36000000 = .ok true :=
  ((c4_daily_window rtUTC dbUTCOnly
    { is_active := true, schedule_type := "time_daily",
      schedule_start_time := some ("09:00"), schedule_end_time := some ("17:00"),
      schedule_timezone := "UTC" } 36000000 0 9 0 17 0 ("09:00") ("17:00")
    rfl rfl (by decide) rfl rfl (by decide) (by decide) (by decide) (by decide)
    (by decide) (by decide)).1).mpr (by decide)

/-! ## Claim C5 — date-range semantics -/

/-- C5 (amended): for an active `date_range` item, a missing (or empty) start
or end date yields `false`; and **when the host runtime's local zone is UTC**
(offset 0) the item is eligible exactly when the instant, placed on the wall
clock of the item's own zone, lies between the start date's midnight and
23:59:59.999 of the end date.  (For a non-zero host offset the boundaries
shift, see the counterexample.) -/
theorem c5_date_range_under_utc_host (rt : JsRuntime) (db : TZDatabase) (v : Video)
    (now τ : Int)
    (hty : v.schedule_type = "date_range") (hact : v.is_active = true)
    (hres : db.resolve (if v.schedule_timezone = "" then "UTC" else v.schedule_timezone)
      = some τ)
    (hrt : rt.localOffsetMin = 0) :
    ((strFalsy v.schedule_start_date || strFalsy v.schedule_end_date) = true →
      isVideoScheduledNow rt db v now = .ok false) ∧
    (∀ (ss es : String) (ds de : Int),
      v.schedule_start_date = some ss → v.schedule_end_date = some es →
      jsParseDate ss = some ds → jsParseDate es = some de →
      (isVideoScheduledNow rt db v now = .ok true ↔
        ds ≤ now + τ * 60000 ∧ now + τ * 60000 ≤ de + 86399999)) := by
  constructor
  · intro hmiss
    simp [isVideoScheduledNow, hact, hres, hty, hmiss]
  · intro ss es ds de hss hes hpds hpde
    have h0 : jsParseDate ("") = none := rfl
    have hne1 : ¬ ss = "" := by
      intro h; rw [h, h0] at hpds; exact Option.noConfusion hpds
    have hne2 : ¬ es = "" := by
      intro h; rw [h, h0] at hpde; exact Option.noConfusion hpde
    obtain ⟨k1, rfl⟩ := jsParseDate_day_multiple hpds
    obtain ⟨k2, rfl⟩ := jsParseDate_day_multiple hpde
    have hexp : isVideoScheduledNow rt db v now =
        .ok (jsGeO (jsToTimezone rt τ now) (jsParseDate ss) &&
          jsLeO (jsToTimezone rt τ now) ((jsParseDate es).map (jsSetHoursEnd rt))) := by
      simp [isVideoScheduledNow, hact, hres, hty, hss, hes, strFalsy, hne1, hne2, getStr]
    rw [hexp, hpds, hpde]
    simp only [Option.map_some', jsGeO, jsLeO, jsSetHoursEnd, jsToTimezone, truncSec, hrt,
      Except.ok.injEq, Bool.and_eq_true, decide_eq_true_eq]
    constructor
    · intro h; omega
    · intro h; omega

/-- Witness for C5's amended statement: a January 2024 range, evaluated half
a second into its last day under a UTC host. -/
theorem c5_date_range_under_utc_host_witness :
    isVideoScheduledNow rtUTC dbUTCOnly
      { is_active := true, schedule_type := "date_range",
        schedule_start_date := some ("2024-01-01"), schedule_end_date := some ("2024-01-31"),
        schedule_timezone := "UTC" } 1706659200500 = .ok true :=
  ((c5_date_range_under_utc_host rtUTC dbUTCOnly
    { is_active := true, schedule_type := "date_range",
      schedule_start_date := some ("2024-01-01"), schedule_end_date := some ("2024-01-31"),
      schedule_timezone := "UTC" } 1706659200500 0 rfl rfl (by decide) rfl).2
    ("2024-01-01") ("2024-01-31") 1704067200000 1706659200000 rfl rfl (by decide)
    (by decide)).mpr (by decide)

/-- Counterexample to C5 as stated: the comparison boundaries depend on the
host runtime's local zone, not only on the item's zone.  With a host one
hour east of UTC, an item zoned UTC and scheduled for exactly 1970-01-02,
the instant 00:30 of 1970-01-02 (item zone wall clock) lies inside the
claimed inclusive range, yet the evaluator answers not eligible — the start
boundary has shifted by the host offset. -/
theorem c5_host_offset_shifts_boundary_cex :
    isVideoScheduledNow rtPlus1 dbUTCOnly
      { is_active := true, schedule_type := "date_range",
        schedule_start_date := some ("1970-01-02"), schedule_end_date := some ("1970-01-02"),
        schedule_timezone := "UTC" } 88200000 = .ok false ∧
    jsParseDate ("1970-01-02") = some 86400000 ∧
    ((86400000 : Int) ≤ 88200000 + 0 * 60000 ∧
      (88200000 : Int) + 0 * 60000 ≤ 86400000 + 86399999) := by
  refine ⟨by decide, by decide, by decide⟩

/-! ## Claim C6 — `custom` is the AND of the three sub-checks -/

/-- C6: for an active `custom` item (with a resolvable zone), the evaluator
returns exactly the conjunction of the date-range sub-check, the daily-window
sub-check and the weekday sub-check, each of which is automatically satisfied
when its columns are absent; consequently a satisfied date range combined
with a failing weekday set is not eligible. -/
theorem c6_custom_and_semantics (rt : JsRuntime) (db : TZDatabase) (v : Video)
    (now τ : Int)
    (hty : v.schedule_type = "custom") (hact : v.is_active = true)
    (hres : db.resolve (if v.schedule_timezone = "" then "UTC" else v.schedule_timezone)
      = some τ) :
    isVideoScheduledNow rt db v now =
      (customWeekdayCheck v.schedule_weekdays (jsGetDay rt (jsToTimezone rt τ now))).map
        (fun wd =>
          customDateCheck rt v.schedule_start_date v.schedule_end_date
              (jsToTimezone rt τ now) &&
            customTimeCheck rt v.schedule_start_time v.schedule_end_time
              (jsToTimezone rt τ now) && wd) ∧
    (customWeekdayCheck v.schedule_weekdays (jsGetDay rt (jsToTimezone rt τ now)) = .ok false →
      isVideoScheduledNow rt db v now = .ok false) := by
  have key : isVideoScheduledNow rt db v now =
      (customWeekdayCheck v.schedule_weekdays (jsGetDay rt (jsToTimezone rt τ now))).map
        (fun wd =>
          customDateCheck rt v.schedule_start_date v.schedule_end_date
              (jsToTimezone rt τ now) &&
            customTimeCheck rt v.schedule_start_time v.schedule_end_time
              (jsToTimezone rt τ now) && wd) := by
    by_cases hwd : (!strFalsy v.schedule_weekdays) = true
    · cases hj : jsonParse (getStr v.schedule_weekdays) with
      | none =>
        simp [isVideoScheduledNow, customWeekdayCheck, customDateCheck, customTimeCheck,
          hact, hres, hty, hwd, hj, Except.map]
      | some w =>
        cases w <;>
          simp [isVideoScheduledNow, customWeekdayCheck, customDateCheck, customTimeCheck,
            jsIncludes, hact, hres, hty, hwd, hj, Except.map]
    · simp [isVideoScheduledNow, customWeekdayCheck, customDateCheck, customTimeCheck,
        hact, hres, hty, hwd, Except.map]
  refine ⟨key, ?_⟩
  intro h
  rw [key, h]
  simp [Except.map]

/-- Witness for C6: a `custom` item whose date range contains the instant but
whose weekday set does not contain the instant's weekday (a Thursday against
`[1]`) is not eligible. -/
theorem c6_custom_and_semantics_witness :
    isVideoScheduledNow rtUTC dbUTCOnly
      { is_active := true, schedule_type := "custom",
        schedule_start_date := some ("1970-01-01"), schedule_end_date := some ("1970-01-02"),
        schedule_weekdays := some ("[1]"), schedule_timezone := "UTC" } 3600000
      = .ok false :=
  (c6_custom_and_semantics rtUTC dbUTCOnly
    { is_active := true, schedule_type := "custom",
      schedule_start_date := some ("1970-01-01"), schedule_end_date := some ("1970-01-02"),
      schedule_weekdays := some ("[1]"), schedule_timezone := "UTC" } 3600000 0
    rfl rfl (by decide)).2 (by decide)
